import Mathlib

/-!
Verification of the smartSTAT AI recommendations dashboard.

Shallow embedding of the TypeScript sources:
  * src/types/inventory.ts   — the data model
  * src/lib/recommendations.ts — usage statistics, preferences, stock and
    recommendation computations
  * src/lib/data.ts          — seeded synthetic data generation

Embedding conventions:
  * JS numbers are modelled as exact rationals (ℚ); the one use of
    Math.sqrt is modelled as Real.sqrt over ℝ.
  * ISO timestamps are modelled as rational day counts since an epoch;
    date-fns differenceInDays is truncation toward zero of the difference.
  * The impure read of the clock (new Date()) is made explicit: every
    function that reads the clock takes a `now : ℚ` parameter.
  * Optional TS fields become Option; JS truthiness tests on them are
    modelled exactly (undefined and 0 are falsy for serviceLevel,
    undefined and "" are falsy for cartId).
  * The `eventType` field of UsageEvent is Option EventType because the
    generator in src/lib/data.ts omits it (at runtime it is undefined);
    recommendations.ts only ever compares it with the two literals.
-/

set_option maxHeartbeats 1000000

/-- Event kind of a usage event (inventory.ts line 19: 'usage' | 'restock'). -/
inductive EventType
  | usage
  | restock
deriving DecidableEq, Repr

/-- Cart record (inventory.ts lines 1–5). -/
structure Cart where
  id : String
  name : String
  department : String
deriving DecidableEq, Repr

/-- Medication record (inventory.ts lines 7–12); packageSize and maxCapacity
are optional. -/
structure Medication where
  id : String
  name : String
  packageSize : Option ℚ
  maxCapacity : Option ℚ
deriving DecidableEq, Repr

/-- Usage event (inventory.ts lines 14–20).  The timestamp is a rational
day count; eventType is optional because src/lib/data.ts generates events
without it. -/
structure UsageEvent where
  timestamp : ℚ
  cartId : String
  medicationId : String
  quantity : ℚ
  eventType : Option EventType
deriving DecidableEq, Repr

/-- Preference record (inventory.ts lines 29–35); cartId and serviceLevel
are optional. -/
structure MedicationPreferences where
  medicationId : String
  cartId : Option String
  surplusDays : ℚ
  leadTime : ℚ
  serviceLevel : Option ℚ
deriving DecidableEq, Repr

/-- Usage statistics (inventory.ts lines 37–43); lastUpdated is the
instant `now` at which the statistics were computed. -/
structure UsageStats where
  medicationId : String
  cartId : String
  dailyUsageRate : ℚ
  daysOfData : ℤ
  lastUpdated : ℚ
deriving DecidableEq, Repr

/-- date-fns differenceInDays: the number of full days between two
instants, truncated toward zero. -/
def differenceInDays (dateLeft dateRight : ℚ) : ℤ :=
  if dateRight ≤ dateLeft then ⌊dateLeft - dateRight⌋ else -⌊dateRight - dateLeft⌋

/-- Filter of recommendations.ts lines 26–32: events of this medication and
cart, of type 'usage', not older than the lookback cutoff. -/
def relevantUsageEvents (medicationId cartId : String) (usageEvents : List UsageEvent)
    (lookbackDays : ℚ) (now : ℚ) : List UsageEvent :=
  let cutoffDate := now - lookbackDays
  usageEvents.filter fun event =>
    decide (event.medicationId = medicationId ∧ event.cartId = cartId ∧
      event.eventType = some EventType.usage ∧ cutoffDate ≤ event.timestamp)

/-- calculateUsageStats (recommendations.ts lines 16–57).  The source has
`lookbackDays: number = 45`; callers that omit the argument pass 45 here. -/
def calculateUsageStats (medicationId cartId : String) (usageEvents : List UsageEvent)
    (lookbackDays : ℚ) (now : ℚ) : UsageStats :=
  let relevantEvents := relevantUsageEvents medicationId cartId usageEvents lookbackDays now
  if h : relevantEvents = [] then
    ⟨medicationId, cartId, 0, 0, now⟩
  else
    let totalQuantity := relevantEvents.foldl (fun sum event => sum + event.quantity) 0
    let firstEvent := relevantEvents.head h
    let lastEvent := relevantEvents.getLast h
    let daysSpan : ℤ := max 1 (differenceInDays lastEvent.timestamp firstEvent.timestamp + 1)
    ⟨medicationId, cartId, totalQuantity / (daysSpan : ℚ), daysSpan, now⟩

/-- JS truthiness of the optional cartId field: `!p.cartId` is true when the
field is undefined or the empty string. -/
def jsFalsyCartId (cartId : Option String) : Bool :=
  match cartId with
  | none => true
  | some s => s == ""

/-- Predicate of recommendations.ts lines 68–70: cart-specific preference. -/
def cartSpecificPred (medicationId cartId : String) (p : MedicationPreferences) : Bool :=
  decide (p.medicationId = medicationId ∧ p.cartId = some cartId)

/-- Predicate of recommendations.ts lines 74–76: medication-wide preference
(`!p.cartId`). -/
def medicationWidePred (medicationId : String) (p : MedicationPreferences) : Bool :=
  decide (p.medicationId = medicationId) && jsFalsyCartId p.cartId

/-- getPreferences (recommendations.ts lines 62–87): first cart-specific
entry, else first medication-wide entry, else fixed defaults. -/
def getPreferences (medicationId cartId : String)
    (preferences : List MedicationPreferences) : MedicationPreferences :=
  match preferences.find? (cartSpecificPred medicationId cartId) with
  | some cartSpecific => cartSpecific
  | none =>
    match preferences.find? (medicationWidePred medicationId) with
    | some medicationWide => medicationWide
    | none => ⟨medicationId, some cartId, 5, 3, some 0.95⟩

/-- Filter of recommendations.ts lines 97–101: all events of this medication
and cart, regardless of event type. -/
def relevantStockEvents (usageEvents : List UsageEvent) (medicationId cartId : String) :
    List UsageEvent :=
  usageEvents.filter fun event =>
    decide (event.medicationId = medicationId ∧ event.cartId = cartId)

/-- One step of the stock reduce (recommendations.ts lines 105–111): restocks
add, anything else subtracts but is clamped at zero. -/
def stockStep (stock : ℚ) (event : UsageEvent) : ℚ :=
  match event.eventType with
  | some EventType.restock => stock + event.quantity
  | _ => max 0 (stock - event.quantity)

/-- The same step without the clamp: the exact net balance. -/
def netStep (stock : ℚ) (event : UsageEvent) : ℚ :=
  match event.eventType with
  | some EventType.restock => stock + event.quantity
  | _ => stock - event.quantity

/-- calculateCurrentStock (recommendations.ts lines 92–114). -/
def calculateCurrentStock (usageEvents : List UsageEvent) (medicationId cartId : String) : ℚ :=
  let relevantEvents := relevantStockEvents usageEvents medicationId cartId
  max 0 (relevantEvents.foldl stockStep 0)

/-- Total quantity carried by restock events of a list. -/
def totalRestocked (events : List UsageEvent) : ℚ :=
  ((events.filter fun e => decide (e.eventType = some EventType.restock)).map
    UsageEvent.quantity).sum

/-- Total quantity carried by non-restock (usage) events of a list. -/
def totalUsed (events : List UsageEvent) : ℚ :=
  ((events.filter fun e => decide (¬ e.eventType = some EventType.restock)).map
    UsageEvent.quantity).sum

/-- calculateDaysUntilStockout (recommendations.ts lines 119–126). -/
def calculateDaysUntilStockout (currentStock dailyUsageRate : ℚ) : Option ℤ :=
  if dailyUsageRate ≤ 0 then none
  else if currentStock ≤ 0 then some 0
  else some ⌊currentStock / dailyUsageRate⌋

/-- Severity of a risk flag (inventory.ts line 68). -/
inductive Severity
  | high
  | medium
  | low
deriving DecidableEq, Repr

/-- Stockout risk flag (inventory.ts lines 67–68). -/
structure RiskFlag where
  daysUntil : ℤ
  severity : Severity
deriving DecidableEq, Repr

/-- generateRiskFlags (recommendations.ts lines 133–157). -/
def generateRiskFlags (daysUntilStockout : Option ℤ) (planningHorizon : ℚ) : List RiskFlag :=
  match daysUntilStockout with
  | none => []
  | some d =>
    if (d : ℚ) ≤ planningHorizon then
      let severity :=
        if (d : ℚ) ≤ planningHorizon * 0.3 then Severity.high
        else if (d : ℚ) ≤ planningHorizon * 0.6 then Severity.medium
        else Severity.low
      [⟨d, severity⟩]
    else []

/-- Z-score selection of recommendations.ts line 215.  The JS conditional
`prefs.serviceLevel ? (… === 0.99 ? 2.33 : … === 0.95 ? 1.65 : 1.28) : 1.65`
tests truthiness first, so both an absent service level and a zero service
level fall to the 1.65 default. -/
def zScoreOf (serviceLevel : Option ℚ) : ℚ :=
  match serviceLevel with
  | none => 1.65
  | some s => if s = 0 then 1.65 else if s = 0.99 then 2.33 else if s = 0.95 then 1.65 else 1.28

/-- Derived values of a recommendation (inventory.ts lines 60–64). -/
structure CalculatedValues where
  safetyStock : ℝ
  targetStock : ℝ
  daysUntilStockout : Option ℤ

/-- Recommendation record (inventory.ts lines 45–65).  The human-readable
`explanation` string (pure presentation-layer formatting) is not modelled. -/
structure Recommendation where
  medicationId : String
  medicationName : String
  cartId : String
  cartName : String
  department : String
  currentStock : ℚ
  forecastDemand : ℚ
  preferredSurplus : ℚ
  recommendedOrderQuantity : ℤ
  recommendedOrderDate : ℚ
  riskFlags : List RiskFlag
  usageStats : UsageStats
  preferences : MedicationPreferences
  calculatedValues : CalculatedValues

/-- generateRecommendation (recommendations.ts lines 196–277).  Math.sqrt is
modelled as Real.sqrt, hence the ℝ-valued safety stock and target stock. -/
noncomputable def generateRecommendation (medication : Medication) (cart : Cart)
    (usageEvents : List UsageEvent) (preferences : List MedicationPreferences)
    (planningHorizon : ℚ) (now : ℚ) : Recommendation :=
  let usageStats := calculateUsageStats medication.id cart.id usageEvents 45 now
  let prefs := getPreferences medication.id cart.id preferences
  let currentStock := calculateCurrentStock usageEvents medication.id cart.id
  let forecastDemand := usageStats.dailyUsageRate * planningHorizon
  let zScore := zScoreOf prefs.serviceLevel
  let safetyStock : ℝ :=
    (zScore : ℝ) * Real.sqrt (prefs.leadTime : ℝ) * (usageStats.dailyUsageRate : ℝ)
  let preferredSurplus := usageStats.dailyUsageRate * prefs.surplusDays
  let targetStock : ℝ := (forecastDemand : ℝ) + safetyStock + (preferredSurplus : ℝ)
  let recommendedOrderQuantity : ℤ := max 0 ⌈targetStock - (currentStock : ℝ)⌉
  let reorderPoint : ℝ :=
    (prefs.leadTime : ℝ) * (usageStats.dailyUsageRate : ℝ) + safetyStock
  let daysUntilReorder : ℚ :=
    if 0 < usageStats.dailyUsageRate then
      ((max 0 ⌊((currentStock : ℝ) - reorderPoint) / (usageStats.dailyUsageRate : ℝ)⌋ : ℤ) : ℚ)
    else planningHorizon
  let recommendedOrderDate : ℚ := now + daysUntilReorder
  let daysUntilStockout := calculateDaysUntilStockout currentStock usageStats.dailyUsageRate
  let riskFlags := generateRiskFlags daysUntilStockout planningHorizon
  { medicationId := medication.id
    medicationName := medication.name
    cartId := cart.id
    cartName := cart.name
    department := cart.department
    currentStock := currentStock
    forecastDemand := forecastDemand
    preferredSurplus := preferredSurplus
    recommendedOrderQuantity := recommendedOrderQuantity
    recommendedOrderDate := recommendedOrderDate
    riskFlags := riskFlags
    usageStats := usageStats
    preferences := prefs
    calculatedValues := ⟨safetyStock, targetStock, daysUntilStockout⟩ }

/-- generateAllRecommendations (recommendations.ts lines 282–305): the nested
forEach with push, one recommendation per (medication, cart) pair. -/
noncomputable def generateAllRecommendations (medications : List Medication) (carts : List Cart)
    (usageEvents : List UsageEvent) (preferences : List MedicationPreferences)
    (planningHorizon : ℚ) (now : ℚ) : List Recommendation :=
  medications.foldl
    (fun recommendations medication =>
      carts.foldl
        (fun recs cart =>
          recs ++ [generateRecommendation medication cart usageEvents preferences
            planningHorizon now])
        recommendations)
    []

/-- Batch record (inventory.ts-adjacent; generated by data.ts lines 68–89).
Quantities and dates are integers; the expiration date is the calendar day
(formatISO with representation 'date'). -/
structure Batch where
  id : String
  medicationId : String
  cartId : String
  quantity : ℤ
  expirationDate : ℤ
deriving DecidableEq, Repr

/-- Output of generateSyntheticData (data.ts lines 42–48). -/
structure SyntheticData where
  carts : List Cart
  medications : List Medication
  batches : List Batch
  usageEvents : List UsageEvent
  preferences : List MedicationPreferences
deriving DecidableEq, Repr

/-- Linear congruential step of SeededRandom (data.ts lines 14–17). -/
def rngNext (seed : ℕ) : ℕ :=
  (seed * 9301 + 49297) % 233280

/-- One draw of SeededRandom.next(): advances the seed and yields
seed / 233280 as an exact rational in [0, 1). -/
def rand : StateM ℕ ℚ :=
  fun seed =>
    let s := rngNext seed
    ((s : ℚ) / 233280, s)

/-- Fixed seed for deterministic data generation (data.ts line 40). -/
def DATA_SEED : ℕ := 12345

/-- Department list (data.ts line 20). -/
def DEPARTMENTS : List String :=
  ["ED", "OR", "ICU", "Pharmacy", "Ward A", "Ward B"]

/-- Medication name list (data.ts lines 21–37). -/
def MEDICATION_NAMES : List String :=
  ["Morphine 10mg", "Fentanyl 50mcg", "Propofol 200mg", "Midazolam 5mg",
   "Atropine 1mg", "Epinephrine 1mg", "Lidocaine 100mg", "Dexamethasone 4mg",
   "Ondansetron 4mg", "Metoclopramide 10mg", "Furosemide 40mg",
   "Heparin 5000 units", "Insulin Regular 100 units", "Norepinephrine 4mg",
   "Dopamine 200mg"]

/-- Carts per department (data.ts line 52). -/
def cartCountFor (dept : String) : ℕ :=
  if dept = "ED" then 3 else if dept = "OR" then 4 else if dept = "ICU" then 2 else 1

/-- Cart generation (data.ts lines 51–58); consumes no randomness. -/
def generateCarts : List Cart :=
  (DEPARTMENTS.enum.map fun p =>
    (List.range (cartCountFor p.2)).map fun i =>
      { id := "cart-" ++ toString p.1 ++ "-" ++ toString i
        name := p.2 ++ " Cart " ++ toString (i + 1)
        department := p.2 }).flatten

/-- Medication generation (data.ts lines 60–65): two draws per medication,
for the optional package size and the optional max capacity. -/
def generateMedications : StateM ℕ (List Medication) :=
  MEDICATION_NAMES.enum.mapM fun p => do
    let r1 ← rand
    let r2 ← rand
    pure { id := "med-" ++ toString p.1
           name := p.2
           packageSize := if 1 / 2 < r1 then some 10 else none
           maxCapacity := if 7 / 10 < r2 then some 100 else none }

/-- Batch generation for one medication-cart pair (data.ts lines 73–87):
one draw for the batch count, then per batch one draw for the expiry offset
and one for the quantity. -/
def generateBatchesFor (now : ℚ) (med : Medication) (cart : Cart) : StateM ℕ (List Batch) := do
  let rb ← rand
  let batchCount := (⌊rb * 3⌋).toNat + 1
  (List.range batchCount).mapM fun i => do
    let r1 ← rand
    let daysUntilExpiry := ⌊r1 * 60⌋ + 5
    let expirationDate := ⌊now + (daysUntilExpiry : ℚ)⌋
    let r2 ← rand
    let quantity := ⌊r2 * 50⌋ + 10
    pure { id := "batch-" ++ med.id ++ "-" ++ cart.id ++ "-" ++ toString i
           medicationId := med.id
           cartId := cart.id
           quantity := quantity
           expirationDate := expirationDate }

/-- Usage-event generation for one medication-cart pair (data.ts lines
95–124).  One draw for the base daily usage, then per day one or two draws
for the event count (the second ternary branch draws again), then per event
three draws (quantity, hour, minute).  The events carry no eventType field
in the source, hence eventType := none. -/
def generateEventsFor (now : ℚ) (med : Medication) (cart : Cart) :
    StateM ℕ (List UsageEvent) := do
  let startDate := now - 60
  let r ← rand
  let baseDailyUsage := r * 5 + 1 / 2
  let dayLists ← (List.range 60).mapM fun day => do
    let date := startDate + (day : ℚ)
    let a ← rand
    let eventsPerDay ←
      if a < 7 / 10 then pure 1
      else do
        let b ← rand
        pure (if b < 9 / 10 then 2 else 0)
    (List.range eventsPerDay).mapM fun _ => do
      let rq ← rand
      let quantity : ℤ := max 1 ⌊rq * baseDailyUsage * 2⌋
      let rh ← rand
      let hour := ⌊rh * 24⌋
      let rm ← rand
      let minute := ⌊rm * 60⌋
      pure { timestamp := (⌊date⌋ : ℚ) + (hour : ℚ) / 24 + (minute : ℚ) / (24 * 60)
             cartId := cart.id
             medicationId := med.id
             quantity := (quantity : ℚ)
             eventType := none }
  pure dayLists.flatten

/-- Stable insertion of an event into a timestamp-sorted list: an event is
placed after all existing events of equal timestamp, as the stable JS
Array.sort with comparator a.timestamp - b.timestamp does. -/
def insertByTimestamp (e : UsageEvent) : List UsageEvent → List UsageEvent
  | [] => [e]
  | x :: xs =>
    if x.timestamp ≤ e.timestamp then x :: insertByTimestamp e xs else e :: x :: xs

/-- Stable sort by timestamp (data.ts line 127). -/
def sortByTimestamp (events : List UsageEvent) : List UsageEvent :=
  events.foldl (fun sorted e => insertByTimestamp e sorted) []

/-- generateSyntheticData as a state-threaded computation over the RNG seed
(data.ts lines 42–145).  The minRemainingShelfLife preference draw is
consumed but the field is absent from the MedicationPreferences interface,
so its value is dropped. -/
def generateSyntheticDataM (now : ℚ) : StateM ℕ SyntheticData := do
  let carts := generateCarts
  let medications ← generateMedications
  let batchLists ← medications.mapM fun med => do
    let perCart ← carts.mapM fun cart => generateBatchesFor now med cart
    pure perCart.flatten
  let batches := batchLists.flatten
  let eventLists ← medications.mapM fun med => do
    let perCart ← carts.mapM fun cart => generateEventsFor now med cart
    pure perCart.flatten
  let usageEvents := sortByTimestamp eventLists.flatten
  let preferences ← medications.mapM fun med => do
    let r1 ← rand
    let surplusDays := ⌊r1 * 8⌋ + 3
    let _ ← rand
    let r3 ← rand
    let leadTime := ⌊r3 * 5⌋ + 2
    pure { medicationId := med.id
           cartId := none
           surplusDays := (surplusDays : ℚ)
           leadTime := (leadTime : ℚ)
           serviceLevel := some 0.95 }
  pure { carts := carts
         medications := medications
         batches := batches
         usageEvents := usageEvents
         preferences := preferences }

/-- The generator run from an explicit seed. -/
def generateSyntheticDataSeeded (seed : ℕ) (now : ℚ) : SyntheticData :=
  (StateT.run (generateSyntheticDataM now) seed).1

/-- generateSyntheticData (data.ts lines 42–145): the generator run from the
fixed seed DATA_SEED. -/
def generateSyntheticData (now : ℚ) : SyntheticData :=
  generateSyntheticDataSeeded DATA_SEED now

/-! Concrete sample data used by witnesses and counterexamples. -/

/-- A medication with a defined package size, as generated for med-3 etc. -/
def cexMedication : Medication :=
  ⟨"med-0", "Morphine 10mg", some 10, none⟩

/-- A cart as generated by data.ts. -/
def cexCart : Cart :=
  ⟨"cart-0-0", "ED Cart 1", "ED"⟩

/-- One usage event 20 days before `now = 0`. -/
def cexEvent : UsageEvent :=
  ⟨-20, "cart-0-0", "med-0", 30, some EventType.usage⟩

/-- Event list with the single 20-day-old usage event. -/
def cexEvents : List UsageEvent :=
  [cexEvent]

/-- Cart-specific preference: surplus 5 days, lead time 4, service level 0.95. -/
def cexPrefs : List MedicationPreferences :=
  [⟨"med-0", some "cart-0-0", 5, 4, some 0.95⟩]

/-- Same preference but with a zero service level (JS-falsy but present). -/
def cexPrefsZero : List MedicationPreferences :=
  [⟨"med-0", some "cart-0-0", 5, 4, some 0⟩]

/-- Same preference but with a huge surplus-days value. -/
def cexPrefsBig : List MedicationPreferences :=
  [⟨"med-0", some "cart-0-0", 10000, 4, some 0.95⟩]

/-- A stored cart-specific preference whose optional serviceLevel is absent. -/
def c5Pref : MedicationPreferences :=
  ⟨"m", some "c", 7, 2, none⟩

/-- Preference list containing only c5Pref. -/
def c5Prefs : List MedicationPreferences :=
  [c5Pref]

/-- Restock before usage: no clamping occurs. -/
def c1GoodEvents : List UsageEvent :=
  [⟨-3, "c", "m", 10, some EventType.restock⟩, ⟨-2, "c", "m", 4, some EventType.usage⟩]

/-- Usage before restock: the usage is clamped at zero stock. -/
def c1ClampEvents : List UsageEvent :=
  [⟨-2, "c", "m", 5, some EventType.usage⟩, ⟨-1, "c", "m", 10, some EventType.restock⟩]

/-- Events for the non-negativity witness. -/
def c8Events : List UsageEvent :=
  [⟨-4, "c", "m", 7, some EventType.usage⟩, ⟨-3, "c", "m", 3, some EventType.restock⟩]

/-! Helper lemmas shared between claims. -/

/-- Evaluation helper: the two event kinds are distinct. -/
theorem decide_usage_eq_restock :
    decide (EventType.usage = EventType.restock) = false := rfl

/-- Case form of the unclamped balance step. -/
theorem netStep_eq (s : ℚ) (e : UsageEvent) :
    netStep s e =
      if e.eventType = some EventType.restock then s + e.quantity else s - e.quantity := by
  rcases he : e.eventType with _ | t
  · simp [netStep, he]
  · cases t <;> simp [netStep, he]

/-- Case form of the clamped stock step. -/
theorem stockStep_eq (s : ℚ) (e : UsageEvent) :
    stockStep s e =
      if e.eventType = some EventType.restock then s + e.quantity
      else max 0 (s - e.quantity) := by
  rcases he : e.eventType with _ | t
  · simp [stockStep, he]
  · cases t <;> simp [stockStep, he]

/-- Restocked total of a cons. -/
theorem totalRestocked_cons (e : UsageEvent) (l : List UsageEvent) :
    totalRestocked (e :: l) =
      (if e.eventType = some EventType.restock then e.quantity else 0) + totalRestocked l := by
  by_cases he : e.eventType = some EventType.restock <;>
    simp [totalRestocked, List.filter_cons, he]

/-- Used total of a cons. -/
theorem totalUsed_cons (e : UsageEvent) (l : List UsageEvent) :
    totalUsed (e :: l) =
      (if e.eventType = some EventType.restock then 0 else e.quantity) + totalUsed l := by
  by_cases he : e.eventType = some EventType.restock <;>
    simp [totalUsed, List.filter_cons, he]

/-- The unclamped fold computes initial balance plus restocks minus usages. -/
theorem foldl_netStep_eq (events : List UsageEvent) (s : ℚ) :
    events.foldl netStep s = s + totalRestocked events - totalUsed events := by
  induction events generalizing s with
  | nil => simp [totalRestocked, totalUsed]
  | cons e l ih =>
    rw [List.foldl_cons, ih, totalRestocked_cons, totalUsed_cons, netStep_eq]
    by_cases he : e.eventType = some EventType.restock
    · rw [if_pos he, if_pos he, if_pos he]
      ring
    · rw [if_neg he, if_neg he, if_neg he]
      ring

/-- When every prefix of the fold stays non-negative, the clamped fold agrees
with the exact net fold. -/
theorem foldl_stockStep_eq_netStep (events : List UsageEvent) (s : ℚ)
    (h : ∀ n, 0 ≤ (events.take n).foldl netStep s) :
    events.foldl stockStep s = events.foldl netStep s := by
  induction events generalizing s with
  | nil => rfl
  | cons e l ih =>
    have h1 : 0 ≤ netStep s e := by simpa using h 1
    have hstep : stockStep s e = netStep s e := by
      rw [stockStep_eq, netStep_eq]
      split_ifs with hc
      · rfl
      · rw [netStep_eq, if_neg hc] at h1
        exact max_eq_right h1
    rw [List.foldl_cons, List.foldl_cons, hstep]
    exact ih (netStep s e) fun n => by simpa using h (n + 1)

/-- The clamped fold preserves non-negativity when all quantities are
non-negative. -/
theorem foldl_stockStep_nonneg (events : List UsageEvent) (s : ℚ)
    (hq : ∀ e ∈ events, 0 ≤ e.quantity) (hs : 0 ≤ s) :
    0 ≤ events.foldl stockStep s := by
  induction events generalizing s with
  | nil => simpa using hs
  | cons e l ih =>
    rw [List.foldl_cons]
    refine ih _ (fun x hx => hq x (List.mem_cons_of_mem _ hx)) ?_
    rw [stockStep_eq]
    split_ifs
    · exact add_nonneg hs (hq e (List.mem_cons_self _ _))
    · exact le_max_left _ _

/-! Claim theorems. -/

/-- C7: calculateDaysUntilStockout is total on arithmetic edge cases: it
returns none exactly when the daily usage rate is ≤ 0, returns 0 when the
rate is positive and current stock is ≤ 0, and otherwise returns
floor(currentStock / dailyUsageRate). -/
theorem calculateDaysUntilStockout_spec (currentStock dailyUsageRate : ℚ) :
    (calculateDaysUntilStockout currentStock dailyUsageRate = none ↔ dailyUsageRate ≤ 0) ∧
    (0 < dailyUsageRate → currentStock ≤ 0 →
      calculateDaysUntilStockout currentStock dailyUsageRate = some 0) ∧
    (0 < dailyUsageRate → 0 < currentStock →
      calculateDaysUntilStockout currentStock dailyUsageRate =
        some ⌊currentStock / dailyUsageRate⌋) := by
  unfold calculateDaysUntilStockout
  refine ⟨⟨?_, ?_⟩, ?_, ?_⟩
  · intro h
    by_contra hr
    push_neg at hr
    rw [if_neg (not_le.mpr hr)] at h
    split_ifs at h
  · intro h
    rw [if_pos h]
  · intro hr hs
    rw [if_neg (not_le.mpr hr), if_pos hs]
  · intro hr hs
    rw [if_neg (not_le.mpr hr), if_neg (not_le.mpr hs)]

/-- Witness for C7 at concrete inputs 10/3, 5/0 and -2/3. -/
theorem calculateDaysUntilStockout_spec_witness :
    calculateDaysUntilStockout 10 3 = some 3 ∧ calculateDaysUntilStockout 5 0 = none ∧
    calculateDaysUntilStockout (-2) 3 = some 0 := by
  refine ⟨?_, ?_, ?_⟩
  · have h := (calculateDaysUntilStockout_spec 10 3).2.2 (by norm_num) (by norm_num)
    have hf : ⌊(10 : ℚ) / 3⌋ = 3 := by norm_num [Int.floor_eq_iff]
    rw [h, hf]
  · exact (calculateDaysUntilStockout_spec 5 0).1.mpr le_rfl
  · exact (calculateDaysUntilStockout_spec (-2) 3).2.1 (by norm_num) (by norm_num)

/-- C10: calculateUsageStats is total on empty histories: no matching events
yields dailyUsageRate 0 and daysOfData 0; when events exist the divisor
daysOfData is at least 1 and the rate is total quantity over that positive
divisor, so the division is never by zero. -/
theorem calculateUsageStats_total (medicationId cartId : String) (usageEvents : List UsageEvent)
    (lookbackDays now : ℚ) :
    (relevantUsageEvents medicationId cartId usageEvents lookbackDays now = [] →
      (calculateUsageStats medicationId cartId usageEvents lookbackDays now).dailyUsageRate = 0 ∧
      (calculateUsageStats medicationId cartId usageEvents lookbackDays now).daysOfData = 0) ∧
    (relevantUsageEvents medicationId cartId usageEvents lookbackDays now ≠ [] →
      1 ≤ (calculateUsageStats medicationId cartId usageEvents lookbackDays now).daysOfData ∧
      (calculateUsageStats medicationId cartId usageEvents lookbackDays now).dailyUsageRate =
        ((relevantUsageEvents medicationId cartId usageEvents lookbackDays now).foldl
          (fun sum event => sum + event.quantity) 0) /
        ((calculateUsageStats medicationId cartId usageEvents lookbackDays now).daysOfData : ℚ)) := by
  constructor
  · intro h
    simp only [calculateUsageStats]
    rw [dif_pos h]
    exact ⟨rfl, rfl⟩
  · intro h
    simp only [calculateUsageStats]
    rw [dif_neg h]
    exact ⟨le_max_left 1 _, rfl⟩

/-- Witness for C10: an empty history and the one-event history. -/
theorem calculateUsageStats_total_witness :
    ((calculateUsageStats "m" "c" [] 45 0).dailyUsageRate = 0 ∧
      (calculateUsageStats "m" "c" [] 45 0).daysOfData = 0) ∧
    1 ≤ (calculateUsageStats "med-0" "cart-0-0" cexEvents 45 0).daysOfData := by
  have hne : relevantUsageEvents "med-0" "cart-0-0" cexEvents 45 0 = [cexEvent] := by
    simp only [relevantUsageEvents, cexEvents, cexEvent, List.filter, decide_eq_true_eq]
    norm_num
  exact ⟨(calculateUsageStats_total "m" "c" [] 45 0).1 rfl,
    ((calculateUsageStats_total "med-0" "cart-0-0" cexEvents 45 0).2 (by simp [hne])).1⟩

/-- C5 (amended): getPreferences follows the precedence cart-specific entry,
then medication-wide entry, then fixed defaults surplusDays 5, leadTime 3,
serviceLevel 0.95; the defaults branch has every optional field populated.
Stored entries are returned verbatim. -/
theorem getPreferences_precedence (medicationId cartId : String)
    (preferences : List MedicationPreferences) :
    (∀ p, preferences.find? (cartSpecificPred medicationId cartId) = some p →
      getPreferences medicationId cartId preferences = p) ∧
    (preferences.find? (cartSpecificPred medicationId cartId) = none →
      ∀ p, preferences.find? (medicationWidePred medicationId) = some p →
        getPreferences medicationId cartId preferences = p) ∧
    (preferences.find? (cartSpecificPred medicationId cartId) = none →
      preferences.find? (medicationWidePred medicationId) = none →
      getPreferences medicationId cartId preferences =
        ⟨medicationId, some cartId, 5, 3, some 0.95⟩) := by
  refine ⟨?_, ?_, ?_⟩
  · intro p hp
    unfold getPreferences
    rw [hp]
  · intro hn p hp
    unfold getPreferences
    rw [hn, hp]
  · intro hn hm
    unfold getPreferences
    rw [hn, hm]

/-- Witness for C5's amended precedence at concrete inputs. -/
theorem getPreferences_precedence_witness :
    getPreferences "m" "c" [] = ⟨"m", some "c", 5, 3, some 0.95⟩ ∧
    getPreferences "m" "c" c5Prefs = c5Pref :=
  ⟨(getPreferences_precedence "m" "c" []).2.2 rfl rfl,
   (getPreferences_precedence "m" "c" c5Prefs).1 c5Pref (by decide)⟩

/-- C5 counterexample: a stored cart-specific entry with an absent
serviceLevel is returned with the field still absent, so not every field of
the returned preference set is defined. -/
theorem getPreferences_undefined_field_counterexample :
    (getPreferences "m" "c" c5Prefs).serviceLevel = none := by decide

/-- C1 (amended): whenever the running unclamped balance of the relevant
events never goes negative (so no clamp fires), the stock computed by
calculateCurrentStock is exactly total restocked minus total used. -/
theorem calculateCurrentStock_conservation (usageEvents : List UsageEvent)
    (medicationId cartId : String)
    (h : ∀ n ≤ (relevantStockEvents usageEvents medicationId cartId).length,
      0 ≤ ((relevantStockEvents usageEvents medicationId cartId).take n).foldl netStep 0) :
    calculateCurrentStock usageEvents medicationId cartId =
      totalRestocked (relevantStockEvents usageEvents medicationId cartId) -
        totalUsed (relevantStockEvents usageEvents medicationId cartId) := by
  set rel := relevantStockEvents usageEvents medicationId cartId with hrel
  have h' : ∀ n, 0 ≤ (rel.take n).foldl netStep 0 := by
    intro n
    rcases le_or_lt n rel.length with hn | hn
    · exact h n hn
    · have ht : rel.take n = rel := List.take_of_length_le hn.le
      rw [ht]
      have hl := h rel.length le_rfl
      rwa [List.take_length] at hl
  have hfold := foldl_stockStep_eq_netStep rel 0 h'
  have hnn : 0 ≤ rel.foldl netStep 0 := by
    have hl := h' rel.length
    rwa [List.take_length] at hl
  have hdef : calculateCurrentStock usageEvents medicationId cartId =
      max 0 (rel.foldl stockStep 0) := rfl
  rw [hdef, hfold, max_eq_right hnn, foldl_netStep_eq]
  ring

/-- Witness for C1's amended conservation: restock 10 then usage 4. -/
theorem calculateCurrentStock_conservation_witness :
    calculateCurrentStock c1GoodEvents "m" "c" =
      totalRestocked (relevantStockEvents c1GoodEvents "m" "c") -
        totalUsed (relevantStockEvents c1GoodEvents "m" "c") ∧
    calculateCurrentStock c1GoodEvents "m" "c" = 6 := by
  have hrel : relevantStockEvents c1GoodEvents "m" "c" = c1GoodEvents := by
    simp [relevantStockEvents, c1GoodEvents, List.filter]
  constructor
  · refine calculateCurrentStock_conservation c1GoodEvents "m" "c" ?_
    rw [hrel]
    intro n hn
    simp only [c1GoodEvents, List.length_cons, List.length_nil] at hn
    interval_cases n <;> norm_num [List.take_succ_cons, List.take_zero, c1GoodEvents, netStep]
  · have hdef : calculateCurrentStock c1GoodEvents "m" "c" =
        max 0 ((relevantStockEvents c1GoodEvents "m" "c").foldl stockStep 0) := rfl
    rw [hdef, hrel]
    norm_num [c1GoodEvents, stockStep, max_def]

/-- C1 counterexample: usage 5 before any restock is clamped away, so the
final stock 10 differs from restocked minus used = 5. -/
theorem calculateCurrentStock_not_conservative :
    calculateCurrentStock c1ClampEvents "m" "c" = 10 ∧
    totalRestocked (relevantStockEvents c1ClampEvents "m" "c") = 10 ∧
    totalUsed (relevantStockEvents c1ClampEvents "m" "c") = 5 ∧
    (10 : ℚ) ≠ 10 - 5 := by
  have hrel : relevantStockEvents c1ClampEvents "m" "c" = c1ClampEvents := by
    simp [relevantStockEvents, c1ClampEvents, List.filter]
  refine ⟨?_, ?_, ?_, by norm_num⟩
  · have hdef : calculateCurrentStock c1ClampEvents "m" "c" =
        max 0 ((relevantStockEvents c1ClampEvents "m" "c").foldl stockStep 0) := rfl
    rw [hdef, hrel]
    norm_num [c1ClampEvents, stockStep, max_def]
  · rw [hrel]
    norm_num [c1ClampEvents, totalRestocked, List.filter, decide_usage_eq_restock]
  · rw [hrel]
    norm_num [c1ClampEvents, totalUsed, List.filter, decide_usage_eq_restock]

/-- C8: with non-negative event quantities the running stock of
calculateCurrentStock is non-negative after every step, each non-restock
event removes exactly min(quantity, available stock), and the final result
is non-negative. -/
theorem calculateCurrentStock_nonneg (usageEvents : List UsageEvent) (medicationId cartId : String)
    (hq : ∀ e ∈ usageEvents, 0 ≤ e.quantity) :
    (∀ n, 0 ≤ ((relevantStockEvents usageEvents medicationId cartId).take n).foldl stockStep 0) ∧
    (∀ (s : ℚ) (e : UsageEvent), e.eventType ≠ some EventType.restock → 0 ≤ s →
      0 ≤ e.quantity → s - stockStep s e = min e.quantity s) ∧
    0 ≤ calculateCurrentStock usageEvents medicationId cartId := by
  refine ⟨?_, ?_, ?_⟩
  · intro n
    refine foldl_stockStep_nonneg _ 0 ?_ le_rfl
    intro e he
    exact hq e (List.mem_of_mem_filter (List.mem_of_mem_take he))
  · intro s e het hs hqe
    rw [stockStep_eq, if_neg het]
    rcases le_total e.quantity s with hc | hc
    · rw [max_eq_right (by linarith), min_eq_left hc]
      ring
    · rw [max_eq_left (by linarith), min_eq_right hc]
      ring
  · exact le_max_left _ _

/-- Witness for C8 at a concrete two-event history. -/
theorem calculateCurrentStock_nonneg_witness :
    0 ≤ calculateCurrentStock c8Events "m" "c" ∧
    0 ≤ ((relevantStockEvents c8Events "m" "c").take 1).foldl stockStep 0 :=
  ⟨(calculateCurrentStock_nonneg c8Events "m" "c" (by decide)).2.2,
   (calculateCurrentStock_nonneg c8Events "m" "c" (by decide)).1 1⟩

/-! Projection lemmas for generateRecommendation, used to evaluate it. -/

/-- The safety stock field of a generated recommendation. -/
theorem generateRecommendation_safetyStock (medication : Medication) (cart : Cart)
    (usageEvents : List UsageEvent) (preferences : List MedicationPreferences)
    (planningHorizon now : ℚ) :
    (generateRecommendation medication cart usageEvents preferences planningHorizon
        now).calculatedValues.safetyStock =
      ((zScoreOf (getPreferences medication.id cart.id preferences).serviceLevel : ℚ) : ℝ) *
        Real.sqrt (((getPreferences medication.id cart.id preferences).leadTime : ℚ) : ℝ) *
        (((calculateUsageStats medication.id cart.id usageEvents 45 now).dailyUsageRate : ℚ) :
          ℝ) := rfl

/-- The target stock field of a generated recommendation. -/
theorem generateRecommendation_targetStock (medication : Medication) (cart : Cart)
    (usageEvents : List UsageEvent) (preferences : List MedicationPreferences)
    (planningHorizon now : ℚ) :
    (generateRecommendation medication cart usageEvents preferences planningHorizon
        now).calculatedValues.targetStock =
      (((calculateUsageStats medication.id cart.id usageEvents 45 now).dailyUsageRate *
          planningHorizon : ℚ) : ℝ) +
        (generateRecommendation medication cart usageEvents preferences planningHorizon
          now).calculatedValues.safetyStock +
        (((calculateUsageStats medication.id cart.id usageEvents 45 now).dailyUsageRate *
          (getPreferences medication.id cart.id preferences).surplusDays : ℚ) : ℝ) := rfl

/-- The recommended order quantity of a generated recommendation. -/
theorem generateRecommendation_orderQuantity (medication : Medication) (cart : Cart)
    (usageEvents : List UsageEvent) (preferences : List MedicationPreferences)
    (planningHorizon now : ℚ) :
    (generateRecommendation medication cart usageEvents preferences planningHorizon
        now).recommendedOrderQuantity =
      max 0 ⌈(generateRecommendation medication cart usageEvents preferences planningHorizon
          now).calculatedValues.targetStock -
        ((calculateCurrentStock usageEvents medication.id cart.id : ℚ) : ℝ)⌉ := rfl

/-- The usage statistics carried by a generated recommendation come from the
45-day lookback window. -/
theorem generateRecommendation_usageStats (medication : Medication) (cart : Cart)
    (usageEvents : List UsageEvent) (preferences : List MedicationPreferences)
    (planningHorizon now : ℚ) :
    (generateRecommendation medication cart usageEvents preferences planningHorizon
        now).usageStats =
      calculateUsageStats medication.id cart.id usageEvents 45 now := rfl

/-- The preferences carried by a generated recommendation. -/
theorem generateRecommendation_preferences (medication : Medication) (cart : Cart)
    (usageEvents : List UsageEvent) (preferences : List MedicationPreferences)
    (planningHorizon now : ℚ) :
    (generateRecommendation medication cart usageEvents preferences planningHorizon
        now).preferences = getPreferences medication.id cart.id preferences := rfl

/-! Evaluation lemmas at the concrete counterexample inputs. -/

/-- Square root of four. -/
theorem real_sqrt_four : Real.sqrt 4 = 2 := by
  rw [show (4 : ℝ) = 2 ^ 2 by norm_num, Real.sqrt_sq (by norm_num : (0 : ℝ) ≤ 2)]

/-- Square root of four, cast form. -/
theorem real_sqrt_fourQ : Real.sqrt (((4 : ℚ) : ℝ)) = 2 := by
  rw [show ((4 : ℚ) : ℝ) = (4 : ℝ) by norm_num]
  exact real_sqrt_four

/-- The relevant usage events of the counterexample history. -/
theorem cex_usage_rel :
    relevantUsageEvents cexMedication.id cexCart.id cexEvents 45 0 = [cexEvent] := by
  simp only [relevantUsageEvents, cexEvents, cexEvent, cexMedication, cexCart, List.filter,
    decide_eq_true_eq]
  norm_num

/-- The usage statistics of the counterexample history: a single usage of 30
units 20 days ago yields a daily usage rate of 30 over 1 day of data. -/
theorem cex_stats :
    calculateUsageStats cexMedication.id cexCart.id cexEvents 45 0 =
      ⟨"med-0", "cart-0-0", 30, 1, 0⟩ := by
  simp only [calculateUsageStats, cex_usage_rel]
  norm_num [differenceInDays, max_def, cexEvent, cexMedication, cexCart]

/-- The counterexample history has zero current stock. -/
theorem cex_stock : calculateCurrentStock cexEvents cexMedication.id cexCart.id = 0 := by
  have hrel : relevantStockEvents cexEvents cexMedication.id cexCart.id = [cexEvent] := by
    simp [relevantStockEvents, cexEvents, cexEvent, cexMedication, cexCart, List.filter]
  have hdef : calculateCurrentStock cexEvents cexMedication.id cexCart.id =
      max 0 ((relevantStockEvents cexEvents cexMedication.id cexCart.id).foldl stockStep 0) := rfl
  rw [hdef, hrel]
  norm_num [stockStep, cexEvent, max_def]

/-- The stored cart-specific preference is selected for cexPrefs. -/
theorem cex_prefs_eval :
    getPreferences cexMedication.id cexCart.id cexPrefs =
      ⟨"med-0", some "cart-0-0", 5, 4, some 0.95⟩ := by
  simp [getPreferences, cexPrefs, List.find?, cartSpecificPred, cexMedication, cexCart]

/-- The stored cart-specific preference is selected for cexPrefsZero. -/
theorem cex_prefsZero_eval :
    getPreferences cexMedication.id cexCart.id cexPrefsZero =
      ⟨"med-0", some "cart-0-0", 5, 4, some 0⟩ := by
  simp [getPreferences, cexPrefsZero, List.find?, cartSpecificPred, cexMedication, cexCart]

/-- The stored cart-specific preference is selected for cexPrefsBig. -/
theorem cex_prefsBig_eval :
    getPreferences cexMedication.id cexCart.id cexPrefsBig =
      ⟨"med-0", some "cart-0-0", 10000, 4, some 0.95⟩ := by
  simp [getPreferences, cexPrefsBig, List.find?, cartSpecificPred, cexMedication, cexCart]

/-- C2 (amended): the safety stock computed inside generateRecommendation is
z(serviceLevel) × sqrt(leadTime) × recent average daily usage, where z maps
0.99 to 2.33, 0.95 to 1.65, and any other nonzero configured level to 1.28;
an unset service level — or a zero one, which is JS-falsy — defaults to
1.65. -/
theorem generateRecommendation_safetyStock_formula (medication : Medication) (cart : Cart)
    (usageEvents : List UsageEvent) (preferences : List MedicationPreferences)
    (planningHorizon now : ℚ) :
    (generateRecommendation medication cart usageEvents preferences planningHorizon
        now).calculatedValues.safetyStock =
      ((zScoreOf (getPreferences medication.id cart.id preferences).serviceLevel : ℚ) : ℝ) *
        Real.sqrt (((getPreferences medication.id cart.id preferences).leadTime : ℚ) : ℝ) *
        (((calculateUsageStats medication.id cart.id usageEvents 45 now).dailyUsageRate : ℚ) :
          ℝ) ∧
    zScoreOf none = 1.65 ∧ zScoreOf (some 0) = 1.65 ∧ zScoreOf (some 0.99) = 2.33 ∧
    zScoreOf (some 0.95) = 1.65 ∧
    (∀ s : ℚ, s ≠ 0 → s ≠ 0.99 → s ≠ 0.95 → zScoreOf (some s) = 1.28) := by
  refine ⟨rfl, rfl, ?_, ?_, ?_, ?_⟩
  · norm_num [zScoreOf]
  · norm_num [zScoreOf]
  · norm_num [zScoreOf]
  · intro s h0 h99 h95
    simp [zScoreOf, h0, h99, h95]

/-- Witness for C2's amended mapping at a concrete 0.9 service level and
concrete recommendation inputs. -/
theorem generateRecommendation_safetyStock_formula_witness :
    zScoreOf (some 0.9) = 1.28 ∧
    (generateRecommendation cexMedication cexCart cexEvents cexPrefs 14
        0).calculatedValues.safetyStock =
      ((zScoreOf (getPreferences cexMedication.id cexCart.id cexPrefs).serviceLevel : ℚ) : ℝ) *
        Real.sqrt (((getPreferences cexMedication.id cexCart.id cexPrefs).leadTime : ℚ) : ℝ) *
        (((calculateUsageStats cexMedication.id cexCart.id cexEvents 45 0).dailyUsageRate : ℚ) :
          ℝ) := by
  constructor
  · exact (generateRecommendation_safetyStock_formula cexMedication cexCart cexEvents cexPrefs
      14 0).2.2.2.2.2 0.9 (by norm_num) (by norm_num) (by norm_num)
  · exact (generateRecommendation_safetyStock_formula cexMedication cexCart cexEvents cexPrefs
      14 0).1

/-- C2 counterexample: with a configured service level of 0 (set, but JS
falsy) the code uses z = 1.65, so the safety stock is 99 rather than the
76.8 the claim's "1.28 otherwise" mapping would give. -/
theorem generateRecommendation_zeroServiceLevel_counterexample :
    (generateRecommendation cexMedication cexCart cexEvents cexPrefsZero 14
        0).calculatedValues.safetyStock = 99 ∧
    (1.28 : ℝ) *
        Real.sqrt (((getPreferences cexMedication.id cexCart.id cexPrefsZero).leadTime : ℚ) : ℝ) *
        (((calculateUsageStats cexMedication.id cexCart.id cexEvents 45 0).dailyUsageRate : ℚ) :
          ℝ) = 76.8 ∧
    (99 : ℝ) ≠ 76.8 := by
  refine ⟨?_, ?_, by norm_num⟩
  · rw [generateRecommendation_safetyStock, cex_prefsZero_eval, cex_stats]
    norm_num [zScoreOf, real_sqrt_fourQ, real_sqrt_four]
  · rw [cex_prefsZero_eval, cex_stats]
    norm_num [real_sqrt_fourQ, real_sqrt_four]

/-- C3 (amended): the recommended order quantity is
max(0, ceil(targetStock − currentStock)) — clipped below at zero but with no
upper cap tied to an order_cap_days bound — and the usage statistics feeding
it come from a 45-day lookback window, not a 7–14-day trailing window. -/
theorem generateRecommendation_orderQuantity_clip (medication : Medication) (cart : Cart)
    (usageEvents : List UsageEvent) (preferences : List MedicationPreferences)
    (planningHorizon now : ℚ) :
    (generateRecommendation medication cart usageEvents preferences planningHorizon
        now).recommendedOrderQuantity =
      max 0 ⌈(generateRecommendation medication cart usageEvents preferences planningHorizon
          now).calculatedValues.targetStock -
        ((calculateCurrentStock usageEvents medication.id cart.id : ℚ) : ℝ)⌉ ∧
    0 ≤ (generateRecommendation medication cart usageEvents preferences planningHorizon
        now).recommendedOrderQuantity ∧
    (generateRecommendation medication cart usageEvents preferences planningHorizon
        now).usageStats = calculateUsageStats medication.id cart.id usageEvents 45 now := by
  refine ⟨rfl, ?_, rfl⟩
  rw [generateRecommendation_orderQuantity]
  exact le_max_left _ _

/-- C3 counterexample: a single 30-unit usage event 20 days old (outside any
7–14-day trailing window) yields dailyUsageRate 30, and with surplusDays
10000 the order quantity 300519 exceeds 10000 days of supply, so no
order_cap_days × recent_avg_daily_usage cap is applied. -/
theorem generateRecommendation_uncapped_counterexample :
    (generateRecommendation cexMedication cexCart cexEvents cexPrefsBig 14
        0).recommendedOrderQuantity = 300519 ∧
    (generateRecommendation cexMedication cexCart cexEvents cexPrefsBig 14
        0).usageStats.dailyUsageRate = 30 ∧
    (10000 : ℤ) * 30 < 300519 ∧
    cexEvent.timestamp = -20 := by
  refine ⟨?_, ?_, by norm_num, rfl⟩
  · rw [generateRecommendation_orderQuantity, generateRecommendation_targetStock,
      generateRecommendation_safetyStock, cex_prefsBig_eval, cex_stats, cex_stock]
    norm_num [zScoreOf, real_sqrt_fourQ, real_sqrt_four, max_def]
  · rw [generateRecommendation_usageStats, cex_stats]

/-- C4 (amended): generateRecommendation ignores the medication's package
size entirely: the recommended order quantity is unchanged under any change
of packageSize (and maxCapacity), so no SPQ rounding or minimum-order-
quantity floor is applied. -/
theorem generateRecommendation_ignores_packageSize (id name : String)
    (ps ps' mc mc' : Option ℚ) (cart : Cart) (usageEvents : List UsageEvent)
    (preferences : List MedicationPreferences) (planningHorizon now : ℚ) :
    (generateRecommendation ⟨id, name, ps, mc⟩ cart usageEvents preferences planningHorizon
        now).recommendedOrderQuantity =
      (generateRecommendation ⟨id, name, ps', mc'⟩ cart usageEvents preferences planningHorizon
        now).recommendedOrderQuantity := rfl

/-- C4 counterexample: for a medication with packageSize 10 the positive
recommended quantity 669 is not a multiple of 10, so no rounding to a
package-size multiple happens. -/
theorem generateRecommendation_packageSize_counterexample :
    cexMedication.packageSize = some 10 ∧
    (generateRecommendation cexMedication cexCart cexEvents cexPrefs 14
        0).recommendedOrderQuantity = 669 ∧
    (0 : ℤ) < 669 ∧ ¬ (10 : ℤ) ∣ 669 := by
  refine ⟨rfl, ?_, by norm_num, by norm_num⟩
  rw [generateRecommendation_orderQuantity, generateRecommendation_targetStock,
    generateRecommendation_safetyStock, cex_prefs_eval, cex_stats, cex_stock]
  norm_num [zScoreOf, real_sqrt_fourQ, real_sqrt_four, max_def]

/-! List lemmas for the shape of generateAllRecommendations. -/

/-- Folding a push equals appending the mapped list. -/
theorem foldl_push_eq_map {α β : Type} (g : α → β) (l : List α) (acc : List β) :
    l.foldl (fun a x => a ++ [g x]) acc = acc ++ l.map g := by
  induction l generalizing acc with
  | nil => simp
  | cons x l ih => simp [ih]

/-- Folding row appends equals appending the flattened rows. -/
theorem foldl_append_rows {α γ : Type} (f : α → List γ) (l : List α) (acc : List γ) :
    l.foldl (fun a m => a ++ f m) acc = acc ++ (l.map f).flatten := by
  induction l generalizing acc with
  | nil => simp
  | cons x l ih => simp [ih]

/-- The nested push-fold equals the flattened rectangle of maps. -/
theorem foldl_nested_push_eq_flatten {α β γ : Type} (g : α → β → γ) (inner : List β)
    (l : List α) (acc : List γ) :
    l.foldl (fun a m => inner.foldl (fun r c => r ++ [g m c]) a) acc =
      acc ++ (l.map fun m => inner.map (g m)).flatten := by
  have h : (fun (a : List γ) (m : α) => inner.foldl (fun r c => r ++ [g m c]) a) =
      fun a m => a ++ inner.map (g m) := by
    funext a m
    exact foldl_push_eq_map _ _ _
  rw [h]
  exact foldl_append_rows _ _ _

/-- A flatten of constantly-empty rows is empty. -/
theorem flatten_map_nil {α γ : Type} (l : List α) :
    (l.map fun _ => ([] : List γ)).flatten = [] := by
  induction l with
  | nil => rfl
  | cons x l ih => simp [ih]

/-- Length of the flattened rectangle. -/
theorem length_flatten_map_const {α β γ : Type} (g : α → β → γ) (inner : List β) (l : List α) :
    ((l.map fun m => inner.map (g m)).flatten).length = l.length * inner.length := by
  induction l with
  | nil => simp
  | cons m l ih =>
    simp only [List.map_cons, List.flatten_cons, List.length_append, List.length_map,
      List.length_cons, ih]
    ring

/-- Row-major indexing of the flattened rectangle. -/
theorem getElem?_flatten_map {α β γ : Type} (g : α → β → γ) (inner : List β) (l : List α)
    (i : ℕ) :
    ((l.map fun m => inner.map (g m)).flatten)[i]? =
      (l[i / inner.length]?).bind fun m => (inner[i % inner.length]?).map (g m) := by
  rcases Nat.eq_zero_or_pos inner.length with h0 | hpos
  · have hinner : inner = [] := List.length_eq_zero.mp h0
    subst hinner
    simp only [List.map_nil]
    rw [flatten_map_nil]
    cases hl : l[i / ([] : List β).length]? <;> simp [hl]
  · induction l generalizing i with
    | nil => simp
    | cons m l ih =>
      rw [List.map_cons, List.flatten_cons]
      rcases Nat.lt_or_ge i inner.length with hi | hi
      · rw [List.getElem?_append_left (by simpa using hi), Nat.div_eq_of_lt hi,
          Nat.mod_eq_of_lt hi]
        simp [List.getElem?_map]
      · obtain ⟨j, rfl⟩ : ∃ j, i = inner.length + j := ⟨i - inner.length, by omega⟩
        rw [List.getElem?_append_right (by simp only [List.length_map]; omega)]
        have hdiv : (inner.length + j) / inner.length = j / inner.length + 1 := by
          rw [Nat.add_comm]
          exact Nat.add_div_right j hpos
        have hmod : (inner.length + j) % inner.length = j % inner.length := by
          rw [Nat.add_comm]
          exact Nat.add_mod_right j inner.length
        have hidx : inner.length + j - (inner.map (g m)).length = j := by simp
        rw [hdiv, hmod, hidx, ih j]
        simp

/-- The push-loop equals the flattened rectangle of recommendations. -/
theorem generateAllRecommendations_eq (medications : List Medication) (carts : List Cart)
    (usageEvents : List UsageEvent) (preferences : List MedicationPreferences)
    (planningHorizon now : ℚ) :
    generateAllRecommendations medications carts usageEvents preferences planningHorizon now =
      (medications.map fun medication => carts.map fun cart =>
        generateRecommendation medication cart usageEvents preferences planningHorizon
          now).flatten := by
  unfold generateAllRecommendations
  rw [foldl_nested_push_eq_flatten]
  simp

/-- C9: generateAllRecommendations produces exactly one recommendation per
(medication, cart) pair: its length is |medications| × |carts| and the entry
at row-major index i is the recommendation for medication i / |carts| and
cart i % |carts| — ordered by medication then cart, even for pairs with no
usage events, no stock and no stored preferences. -/
theorem generateAllRecommendations_complete (medications : List Medication) (carts : List Cart)
    (usageEvents : List UsageEvent) (preferences : List MedicationPreferences)
    (planningHorizon now : ℚ) :
    (generateAllRecommendations medications carts usageEvents preferences planningHorizon
        now).length = medications.length * carts.length ∧
    ∀ i : ℕ,
      (generateAllRecommendations medications carts usageEvents preferences planningHorizon
        now)[i]? =
      (medications[i / carts.length]?).bind fun medication =>
        (carts[i % carts.length]?).map fun cart =>
          generateRecommendation medication cart usageEvents preferences planningHorizon now := by
  constructor
  · rw [generateAllRecommendations_eq]
    exact length_flatten_map_const _ _ _
  · intro i
    rw [generateAllRecommendations_eq]
    exact getElem?_flatten_map _ _ _ i

/-- C6: generateSyntheticData is deterministic: it is a pure function of the
clock instant (the source's only impurity), it draws all randomness from
SeededRandom started at the fixed seed DATA_SEED = 12345, so two runs
produce identical carts, medications, batches, usage events and
preferences; concretely, every run yields these 12 carts and, from seed
12345, these 15 medications. -/
theorem generateSyntheticData_deterministic :
    (∀ now : ℚ, generateSyntheticData now = generateSyntheticData now ∧
      generateSyntheticData now = generateSyntheticDataSeeded 12345 now) ∧
    DATA_SEED = 12345 ∧
    generateCarts =
      [⟨"cart-0-0", "ED Cart 1", "ED"⟩, ⟨"cart-0-1", "ED Cart 2", "ED"⟩,
       ⟨"cart-0-2", "ED Cart 3", "ED"⟩, ⟨"cart-1-0", "OR Cart 1", "OR"⟩,
       ⟨"cart-1-1", "OR Cart 2", "OR"⟩, ⟨"cart-1-2", "OR Cart 3", "OR"⟩,
       ⟨"cart-1-3", "OR Cart 4", "OR"⟩, ⟨"cart-2-0", "ICU Cart 1", "ICU"⟩,
       ⟨"cart-2-1", "ICU Cart 2", "ICU"⟩, ⟨"cart-3-0", "Pharmacy Cart 1", "Pharmacy"⟩,
       ⟨"cart-4-0", "Ward A Cart 1", "Ward A"⟩, ⟨"cart-5-0", "Ward B Cart 1", "Ward B"⟩] ∧
    (StateT.run generateMedications DATA_SEED).1 =
      [⟨"med-0", "Morphine 10mg", none, none⟩,
       ⟨"med-1", "Fentanyl 50mcg", none, none⟩,
       ⟨"med-2", "Propofol 200mg", none, none⟩,
       ⟨"med-3", "Midazolam 5mg", some 10, none⟩,
       ⟨"med-4", "Atropine 1mg", none, none⟩,
       ⟨"med-5", "Epinephrine 1mg", some 10, none⟩,
       ⟨"med-6", "Lidocaine 100mg", none, none⟩,
       ⟨"med-7", "Dexamethasone 4mg", none, none⟩,
       ⟨"med-8", "Ondansetron 4mg", none, none⟩,
       ⟨"med-9", "Metoclopramide 10mg", some 10, none⟩,
       ⟨"med-10", "Furosemide 40mg", none, none⟩,
       ⟨"med-11", "Heparin 5000 units", some 10, none⟩,
       ⟨"med-12", "Insulin Regular 100 units", some 10, none⟩,
       ⟨"med-13", "Norepinephrine 4mg", some 10, none⟩,
       ⟨"med-14", "Dopamine 200mg", none, some 100⟩] := by
  refine ⟨fun now => ⟨rfl, rfl⟩, rfl, by decide, ?_⟩
  simp only [generateMedications, MEDICATION_NAMES, DATA_SEED, List.enum, List.enumFrom,
    List.mapM, List.mapM.loop, rand, rngNext, StateT.run, bind, StateT.bind, pure, StateT.pure]
  norm_num
  decide
